import Mathlib

/-!
# Verification of the Neighborly wiki generator (`src/main.py`)

Shallow embedding of the page-generation pipeline of `src/main.py`.

The program is a lookup-and-render pipeline over a JSON snapshot:
`sim` is a JSON object with a `"gameobjects"` field mapping id strings to
entity records `{id, name, components, parent?}`.  We embed JSON values as
the inductive type `JVal`, Python dictionary/list operations as fallible
functions in `Except PyErr`, and each page generator as a function from
the snapshot and a gameobject to the shaped data handed to the template
(the renderer and the file writer are out of scope, per the spec; a
generator's result records the template arguments and the output file
name).  A Python `for` loop that appends to a list is embedded as a
structurally recursive function threading the accumulator, and dictionary
iteration follows the field list's order (Python dicts preserve insertion
order).
-/

/-- Errors a page generator can raise: `KeyError` from a missing dictionary
key or snapshot id, `TypeError` from subscripting/iterating a non-container,
and `NotImplementedError` from the unimplemented generators. -/
inductive PyErr where
  | keyError (k : String)
  | typeError
  | notImplementedError
deriving Repr, DecidableEq

/-- JSON-like values: the data model of the snapshot (`sim`). -/
inductive JVal where
  | s (v : String)
  | i (v : Int)
  | b (v : Bool)
  | null
  | arr (xs : List JVal)
  | obj (fields : List (String × JVal))
deriving Repr, Inhabited

/-- First-match association lookup: Python dict indexing (dict keys are
unique in Python; a duplicated key in the field list is shadowed). -/
def lookupKey (fs : List (String × JVal)) (k : String) : Option JVal :=
  match fs with
  | [] => none
  | (k2, v) :: rest => if k2 = k then some v else lookupKey rest k

/-- Key-presence test on an attribute bag: Python `k in d` for a dict. -/
def hasK (fs : List (String × JVal)) (k : String) : Bool :=
  (lookupKey fs k).isSome

namespace JVal

/-- Python `d[k]`: raises `KeyError` when the key is missing and
`TypeError` when the subscripted value is not a dict. -/
def getField : JVal → String → Except PyErr JVal
  | .obj fs, k =>
    match lookupKey fs k with
    | some v => .ok v
    | none => .error (.keyError k)
  | _, _ => .error .typeError

/-- Python `d.get(k)`: `None` when the key is missing; calling `.get` on a
non-dict is an attribute error, collapsed into `TypeError` here. -/
def getOpt : JVal → String → Except PyErr (Option JVal)
  | .obj fs, k => .ok (lookupKey fs k)
  | _, _ => .error .typeError

/-- Python `d.get(k, default)`. -/
def getWithDefault : JVal → String → JVal → Except PyErr JVal
  | .obj fs, k, d => .ok ((lookupKey fs k).getD d)
  | _, _, _ => .error .typeError

/-- Python `k in d` as used on the component bags (the bag is a dict in
every snapshot the input contract admits; `in` on a non-dict container is
not needed by any claim and is collapsed into `TypeError`). -/
def hasKeyE : JVal → String → Except PyErr Bool
  | .obj fs, k => .ok (hasK fs k)
  | _, _ => .error .typeError

/-- Python `for x in v`: a JSON array yields its elements and a dict yields
its keys; iterating a scalar raises `TypeError`. -/
def asList : JVal → Except PyErr (List JVal)
  | .arr xs => .ok xs
  | .obj fs => .ok (fs.map (fun p => JVal.s p.1))
  | _ => .error .typeError

/-- Python `d.items()`. -/
def items : JVal → Except PyErr (List (String × JVal))
  | .obj fs => .ok fs
  | _ => .error .typeError

/-- Python truthiness of a JSON value (used by the walrus-`if` in
`generate_character_page`). -/
def truthy : JVal → Bool
  | .s v => v ≠ ""
  | .i v => v ≠ 0
  | .b v => v
  | .null => false
  | .arr xs => !xs.isEmpty
  | .obj fs => !fs.isEmpty

end JVal

/-- Python `str()` for the values interpolated into f-strings.  Ids are
ints (or already strings) in every snapshot the input contract admits;
`str()` of a container is abbreviated since no page interpolates one. -/
def pyStr : JVal → String
  | .s v => v
  | .i v => toString v
  | .b v => if v then "True" else "False"
  | .null => "None"
  | .arr _ => "[...]"
  | .obj _ => "{...}"

/-- A Python `for` loop that appends one shaped record per element
(no cross-iteration state): collects the per-element results in order. -/
def mapE {α β : Type} (xs : List α) (f : α → Except PyErr β) :
    Except PyErr (List β) :=
  match xs with
  | [] => .ok []
  | x :: rest => do
    let y ← f x
    let ys ← mapE rest f
    return y :: ys

/-- A Python `for` loop threading an accumulator. -/
def foldE {σ α : Type} (f : σ → α → Except PyErr σ) (init : σ) :
    List α → Except PyErr σ
  | [] => .ok init
  | x :: xs => do foldE f (← f init x) xs

/-! ## The dispatcher (`main`, src/main.py:426-440)

The loop body of `main` tests the entity's component-bag keys with an
`if`/`elif` chain and calls exactly one page generator, the one of the
first matching key; `dispatch` transcribes that chain, reporting the
selected generator as a `Kind` (`none` when the entity is skipped). -/

/-- The five dispatch kinds of `main`'s `if`/`elif` chain. -/
inductive Kind where
  | settlement
  | district
  | character
  | business
  | residentialBuilding
deriving Repr, DecidableEq

/-- The component-bag key `main` tests for each kind. -/
def kindKey : Kind → String
  | .settlement => "Settlement"
  | .district => "District"
  | .character => "Character"
  | .business => "Business"
  | .residentialBuilding => "ResidentialBuilding"

/-- Position of each kind in `main`'s `if`/`elif` chain (0 is tested
first). -/
def kindPrio : Kind → Nat
  | .settlement => 0
  | .district => 1
  | .character => 2
  | .business => 3
  | .residentialBuilding => 4

/-- The loop body of `main` (src/main.py:426-440): the `if`/`elif` chain
over the component-bag keys, returning the kind whose generator is
invoked (`none`: no generator is invoked, the entity is skipped). -/
def dispatch (gameobject : JVal) : Except PyErr (Option Kind) := do
  let comps ← gameobject.getField "components"
  if ← comps.hasKeyE "Settlement" then return some .settlement
  else if ← comps.hasKeyE "District" then return some .district
  else if ← comps.hasKeyE "Character" then return some .character
  else if ← comps.hasKeyE "Business" then return some .business
  else if ← comps.hasKeyE "ResidentialBuilding" then return some .residentialBuilding
  else return none

/-- Pure form of `dispatch` on an attribute bag known to be a dict. -/
def dKeys (cs : List (String × JVal)) : Option Kind :=
  if hasK cs "Settlement" then some .settlement
  else if hasK cs "District" then some .district
  else if hasK cs "Character" then some .character
  else if hasK cs "Business" then some .business
  else if hasK cs "ResidentialBuilding" then some .residentialBuilding
  else none

/-! ## The homepage (`generate_home_page`, src/main.py:360-408) -/

/-- The four homepage buckets. -/
inductive HomeKind where
  | settlement
  | district
  | business
  | character
deriving Repr, DecidableEq

/-- The per-entity key test of `generate_home_page`'s loop
(src/main.py:370-397): an `if`-with-`continue` chain in the order
Settlement, District, Business, Character; entities matching none are
left off the homepage. -/
def homeKind (entry : JVal) : Except PyErr (Option HomeKind) := do
  let comps ← entry.getField "components"
  if ← comps.hasKeyE "Settlement" then return some .settlement
  else if ← comps.hasKeyE "District" then return some .district
  else if ← comps.hasKeyE "Business" then return some .business
  else if ← comps.hasKeyE "Character" then return some .character
  else return none

/-- Pure form of `homeKind` on an attribute bag known to be a dict. -/
def hKeys (cs : List (String × JVal)) : Option HomeKind :=
  if hasK cs "Settlement" then some .settlement
  else if hasK cs "District" then some .district
  else if hasK cs "Business" then some .business
  else if hasK cs "Character" then some .character
  else none

/-- The homepage bucket holding each dispatch kind (residential buildings
and lower kinds are not listed on the homepage). -/
def kindToHome : Kind → Option HomeKind
  | .settlement => some .settlement
  | .district => some .district
  | .character => some .character
  | .business => some .business
  | .residentialBuilding => none

/-- The unlabeled homepage entry `(entry["name"],
f"/gameobjects/\x7bentry['id']\x7d.html")` used for the settlement and
district buckets. -/
def homeEntryPair (entry : JVal) : Except PyErr (JVal × String) := do
  let nm ← entry.getField "name"
  let id ← entry.getField "id"
  return (nm, "/gameobjects/" ++ pyStr id ++ ".html")

/-- The labeled homepage entry used for the business and character
buckets: the name is interpolated into an f-string and suffixed with
" (inactive)" when the bag has no "Active" key. -/
def homeEntryLabeledPair (entry : JVal) : Except PyErr (String × String) := do
  let comps ← entry.getField "components"
  let is_active ← comps.hasKeyE "Active"
  let nm ← entry.getField "name"
  let id ← entry.getField "id"
  return (pyStr nm ++ (if !is_active then " (inactive)" else ""),
    "/gameobjects/" ++ pyStr id ++ ".html")

/-- The shaped data handed to the `index.jinja` template. -/
structure HomePage where
  settlements : List (JVal × String)
  districts : List (JVal × String)
  businesses : List (String × String)
  characters : List (String × String)
deriving Repr, Inhabited

/-- One iteration of `generate_home_page`'s loop (src/main.py:370-397):
the `if`/`continue` chain is factored through `homeKind`, and the matching
bucket receives the entry's pair. -/
def homeStep (acc : HomePage) (entry : JVal) : Except PyErr HomePage := do
  match ← homeKind entry with
  | some .settlement =>
    return { acc with settlements := acc.settlements ++ [← homeEntryPair entry] }
  | some .district =>
    return { acc with districts := acc.districts ++ [← homeEntryPair entry] }
  | some .business =>
    return { acc with businesses := acc.businesses ++ [← homeEntryLabeledPair entry] }
  | some .character =>
    return { acc with characters := acc.characters ++ [← homeEntryLabeledPair entry] }
  | none => return acc

/-- `generate_home_page` (src/main.py:360-408): one pass over
`sim["gameobjects"].items()`, producing the four bucket lists handed to
the `index.jinja` template (writing `index.html` is out of scope). -/
def generate_home_page (sim : JVal) : Except PyErr HomePage := do
  let gos ← sim.getField "gameobjects"
  let entries ← gos.items
  foldE (fun acc e => homeStep acc e.2)
    { settlements := [], districts := [], businesses := [], characters := [] }
    entries

/-! ## Shared shaping helpers -/

/-- A `(name, description)` record shaped from a trait. -/
structure TraitInfo where
  name : JVal
  description : JVal
deriving Repr

/-- The trait-shaping loop shared by the residence, business, character
and relationship shaping code (e.g. src/main.py:184-190): for each id in
`owner["components"]["Traits"]["traits"]`, look the trait entity up and
keep its display name and description. -/
def shapeTraits (sim owner : JVal) : Except PyErr (List TraitInfo) := do
  let traits_v ← (← (← owner.getField "components").getField "Traits").getField "traits"
  let trait_ids ← traits_v.asList
  mapE trait_ids (fun trait_id => do
    let trait ← (← (← (← sim.getField "gameobjects").getField (pyStr trait_id)).getField "components").getField "Trait"
    let trait_name ← trait.getField "display_name"
    let trait_description ← trait.getField "description"
    return { name := trait_name, description := trait_description })

/-! ## Unimplemented generators (src/main.py:47-49, 270-272) -/

/-- `generate_trait_page` (src/main.py:47-49): raises
`NotImplementedError` unconditionally; no page data is produced and no
output file is written. -/
def generate_trait_page (_sim _gameobject : JVal) : Except PyErr Unit :=
  .error .notImplementedError

/-- `generate_skill_page` (src/main.py:270-272): raises
`NotImplementedError` unconditionally; no page data is produced and no
output file is written. -/
def generate_skill_page (_sim _gameobject : JVal) : Except PyErr Unit :=
  .error .notImplementedError

/-! ## `generate_settlement_page` (src/main.py:332-357) -/

/-- The shaped data handed to the `settlement.jinja` template, plus the
output file path. -/
structure SettlementPage where
  settlement_name : JVal
  population : JVal
  description : JVal
  districts : List (JVal × String)
  out_file : String
deriving Repr

/-- `generate_settlement_page` (src/main.py:332-357). -/
def generate_settlement_page (sim gameobject : JVal) :
    Except PyErr SettlementPage := do
  let settlement_name ← gameobject.getField "name"
  let population ← (← (← gameobject.getField "components").getField "Settlement").getWithDefault "population" (.i (-1))
  let description ← (← (← gameobject.getField "components").getField "Settlement").getWithDefault "description" (.s "N/A")
  let districts_v ← (← (← gameobject.getField "components").getField "Settlement").getField "districts"
  let district_ids ← districts_v.asList
  let districts ← mapE district_ids (fun district_id => do
    let district_name ← (← (← sim.getField "gameobjects").getField (pyStr district_id)).getField "name"
    return (district_name, "../gameobjects/" ++ pyStr district_id ++ ".html"))
  let id ← gameobject.getField "id"
  return {
    settlement_name := settlement_name
    population := population
    description := description
    districts := districts
    out_file := "gameobjects/" ++ pyStr id ++ ".html" }

/-! ## `generate_business_page` (src/main.py:102-153) -/

/-- The shaped data handed to the `business.jinja` template, plus the
output file path. -/
structure BusinessPage where
  business_name : JVal
  activity_status : String
  district_name : JVal
  district_link : String
  owner_name : String
  owner_link : String
  frequented_by : List JVal
  traits : List TraitInfo
  events : List JVal
  out_file : String
deriving Repr

/-- `generate_business_page` (src/main.py:102-153). -/
def generate_business_page (sim gameobject : JVal) :
    Except PyErr BusinessPage := do
  let business_name ← gameobject.getField "name"
  let is_active ← (← gameobject.getField "components").hasKeyE "Active"
  let activity_status := if is_active then "Active" else "Inactive"
  let district_id ← (← (← gameobject.getField "components").getField "Business").getField "district"
  let district ← (← sim.getField "gameobjects").getField (pyStr district_id)
  let district_name ← district.getField "name"
  let district_link := "../gameobjects/" ++ pyStr district_id ++ ".html"
  let owner_name := "TBD"
  let owner_link := "#"
  let frequented_by : List JVal := []
  let traits ← shapeTraits sim gameobject
  let events : List JVal := []
  let id ← gameobject.getField "id"
  return {
    business_name := business_name
    activity_status := activity_status
    district_name := district_name
    district_link := district_link
    owner_name := owner_name
    owner_link := owner_link
    frequented_by := frequented_by
    traits := traits
    events := events
    out_file := "gameobjects/" ++ pyStr id ++ ".html" }

/-! ## `generate_character_page` (src/main.py:156-267) -/

/-- A `(name, level, description)` record shaped from a skill. -/
structure SkillInfo where
  name : JVal
  level : JVal
  description : JVal
deriving Repr

/-- One shaped outgoing relationship. -/
structure RelationshipInfo where
  target_name : JVal
  target_link : String
  reputation : JVal
  romance : JVal
  compatibility : JVal
  romantic_compatibility : JVal
  traits : List TraitInfo
deriving Repr

/-- The shaped data handed to the `character.jinja` template, plus the
output file path. -/
structure CharacterPage where
  character_name : JVal
  activity_status : String
  age : JVal
  sex : JVal
  life_stage : JVal
  species : JVal
  residence_name : JVal
  residence_link : String
  occupation_name : JVal
  occupation_link : String
  traits : List TraitInfo
  skills : List SkillInfo
  frequented_locations : List (JVal × String)
  relationships : List RelationshipInfo
  events : List JVal
  out_file : String
deriving Repr

/-- The residence block of `generate_character_page`
(src/main.py:169-175), factored into a helper: the walrus-`if` fetches
the "Resident" component with `.get`; when it is present (and truthy)
the rendered pair is the name and link of the PARENT building of the
resident's unit, read from the `"parent"` field of the unit gameobject;
otherwise the sentinels `("N/A", "#")` stand. -/
def residencePairOfOpt (sim : JVal) :
    Option JVal → Except PyErr (JVal × String)
  | some resident_data =>
    if resident_data.truthy then do
      let residence_id ← resident_data.getField "residence"
      let building_id ← (← (← sim.getField "gameobjects").getField (pyStr residence_id)).getField "parent"
      let residence_name ← (← (← sim.getField "gameobjects").getField (pyStr building_id)).getField "name"
      pure (residence_name, "../gameobjects/" ++ pyStr building_id ++ ".html")
    else pure (JVal.s "N/A", "#")
  | none => pure (JVal.s "N/A", "#")

/-- The walrus-`if` dispatch of the residence block. -/
def characterResidencePair (sim gameobject : JVal) :
    Except PyErr (JVal × String) := do
  residencePairOfOpt sim (← (← gameobject.getField "components").getOpt "Resident")

/-- The occupation block of `generate_character_page`
(src/main.py:177-182), factored into a helper. -/
def occupationPairOfOpt (sim : JVal) :
    Option JVal → Except PyErr (JVal × String)
  | some occupation_data =>
    if occupation_data.truthy then do
      let business_id ← occupation_data.getField "business"
      let occupation_name ← (← (← sim.getField "gameobjects").getField (pyStr business_id)).getField "name"
      pure (occupation_name, "../gameobjects/" ++ pyStr business_id ++ ".html")
    else pure (JVal.s "N/A", "#")
  | none => pure (JVal.s "N/A", "#")

/-- The walrus-`if` dispatch of the occupation block. -/
def characterOccupationPair (sim gameobject : JVal) :
    Except PyErr (JVal × String) := do
  occupationPairOfOpt sim (← (← gameobject.getField "components").getOpt "Occupation")

/-- `generate_character_page` (src/main.py:156-267).  The residence and
occupation blocks follow the walrus-`if` of the source: the component is
fetched with `.get` and the defaults `"N/A"`/`"#"` stand when it is
absent (or falsy); every other component access is a plain subscript that
raises `KeyError` when the key is missing. -/
def generate_character_page (sim gameobject : JVal) :
    Except PyErr CharacterPage := do
  let character_name ← gameobject.getField "name"
  let is_active ← (← gameobject.getField "components").hasKeyE "Active"
  let activity_status := if is_active then "Active" else "Inactive"
  let age ← (← (← gameobject.getField "components").getField "Character").getField "age"
  let sex ← (← (← gameobject.getField "components").getField "Character").getField "sex"
  let life_stage ← (← (← gameobject.getField "components").getField "Character").getField "life_stage"
  let species ← (← (← gameobject.getField "components").getField "Character").getField "species"
  let residence_pair ← characterResidencePair sim gameobject
  let occupation_pair ← characterOccupationPair sim gameobject
  let traits ← shapeTraits sim gameobject
  let skill_items ← (← (← gameobject.getField "components").getField "Skills").items
  let skills ← mapE skill_items (fun si => do
    let skill ← (← (← (← sim.getField "gameobjects").getField si.1).getField "components").getField "Skill"
    let skill_name ← skill.getField "display_name"
    let skill_description ← skill.getField "description"
    return { name := skill_name, level := si.2, description := skill_description : SkillInfo })
  let locations_v ← (← (← gameobject.getField "components").getField "FrequentedLocations").getField "locations"
  let location_ids ← locations_v.asList
  let frequented_locations ← mapE location_ids (fun location_id => do
    let location ← (← sim.getField "gameobjects").getField (pyStr location_id)
    return (← location.getField "name", "../gameobjects/" ++ pyStr location_id ++ ".html"))
  let outgoing_v ← (← (← gameobject.getField "components").getField "Relationships").getField "outgoing"
  let outgoing ← outgoing_v.items
  let relationships ← mapE outgoing (fun rel => do
    let target ← (← sim.getField "gameobjects").getField rel.1
    let relationship ← (← sim.getField "gameobjects").getField (pyStr rel.2)
    let relationship_traits ← shapeTraits sim relationship
    let stats ← (← relationship.getField "components").getField "Stats"
    return {
      target_name := ← target.getField "name"
      target_link := "../gameobjects/" ++ rel.1 ++ ".html"
      reputation := ← stats.getField "reputation"
      romance := ← stats.getField "romance"
      compatibility := ← stats.getField "compatibility"
      romantic_compatibility := ← stats.getField "romantic_compatibility"
      traits := relationship_traits : RelationshipInfo })
  let events : List JVal := []
  let id ← gameobject.getField "id"
  return {
    character_name := character_name
    activity_status := activity_status
    age := age
    sex := sex
    life_stage := life_stage
    species := species
    residence_name := residence_pair.1
    residence_link := residence_pair.2
    occupation_name := occupation_pair.1
    occupation_link := occupation_pair.2
    traits := traits
    skills := skills
    frequented_locations := frequented_locations
    relationships := relationships
    events := events
    out_file := "gameobjects/" ++ pyStr id ++ ".html" }

/-! ## `generate_residence_page` (src/main.py:52-99) -/

/-- One shaped residential unit: the unit id and its residents. -/
structure UnitInfo where
  number : JVal
  residents : List (JVal × String)
deriving Repr

/-- The shaped data handed to the `residence.jinja` template, plus the
output file path. -/
structure ResidencePage where
  residence_name : JVal
  district : JVal × String
  traits : List TraitInfo
  units : List UnitInfo
  activity_status : String
  out_file : String
deriving Repr

/-- The `(resident["name"],
f"../gameobjects/\x7bresident_id\x7d.html")` pair built by the resident
loops of the residence and district pages. -/
def residentPair (sim resident_id : JVal) : Except PyErr (JVal × String) := do
  let resident ← (← sim.getField "gameobjects").getField (pyStr resident_id)
  let nm ← resident.getField "name"
  return (nm, "../gameobjects/" ++ pyStr resident_id ++ ".html")

/-- `generate_residence_page` (src/main.py:52-99). -/
def generate_residence_page (sim gameobject : JVal) :
    Except PyErr ResidencePage := do
  let residence_name ← gameobject.getField "name"
  let is_active ← (← gameobject.getField "components").hasKeyE "Active"
  let activity_status := if is_active then "Active" else "Inactive"
  let district_id ← (← (← gameobject.getField "components").getField "ResidentialBuilding").getField "district"
  let district_name ← (← (← sim.getField "gameobjects").getField (pyStr district_id)).getField "name"
  let district := (district_name, "../gameobjects/" ++ pyStr district_id ++ ".html")
  let traits ← shapeTraits sim gameobject
  let units_v ← (← (← gameobject.getField "components").getField "ResidentialBuilding").getField "units"
  let unit_ids ← units_v.asList
  let units ← mapE unit_ids (fun unit_id => do
    let unit ← (← sim.getField "gameobjects").getField (pyStr unit_id)
    let residents_v ← (← (← unit.getField "components").getField "Residence").getField "residents"
    let resident_ids ← residents_v.asList
    let residents ← mapE resident_ids (residentPair sim)
    return { number := unit_id, residents := residents : UnitInfo })
  let id ← gameobject.getField "id"
  return {
    residence_name := residence_name
    district := district
    traits := traits
    units := units
    activity_status := activity_status
    out_file := "gameobjects/" ++ pyStr id ++ ".html" }

/-! ## `generate_district_page` (src/main.py:275-329)

The source interleaves two accumulating lists in one loop nest: for each
residence id (in order) it appends one `(name, link)` pair to
`residences` and then, walking that residence's units in order and each
unit's residents in order, appends one pair per resident to `residents`.
The three nested `for` loops are transcribed as three recursive
functions threading the accumulators. -/

/-- The innermost loop (src/main.py:300-304): append one pair per
resident id to the shared `residents` accumulator. -/
def residentsLoop (sim : JVal) (residents : List (JVal × String)) :
    List JVal → Except PyErr (List (JVal × String))
  | [] => .ok residents
  | resident_id :: rest => do
    let p ← residentPair sim resident_id
    residentsLoop sim (residents ++ [p]) rest

/-- The resident-id list of one unit (src/main.py:299-300):
`sim["gameobjects"][str(unit_id)]["components"]["Residence"]["residents"]`. -/
def unitResidentIds (sim unit_id : JVal) : Except PyErr (List JVal) := do
  let unit ← (← (← (← sim.getField "gameobjects").getField (pyStr unit_id)).getField "components").getField "Residence"
  (← unit.getField "residents").asList

/-- The middle loop (src/main.py:298-304): walk one residence's units in
order, threading the `residents` accumulator. -/
def unitsLoop (sim : JVal) (residents : List (JVal × String)) :
    List JVal → Except PyErr (List (JVal × String))
  | [] => .ok residents
  | unit_id :: rest => do
    let rids ← unitResidentIds sim unit_id
    let residents2 ← residentsLoop sim residents rids
    unitsLoop sim residents2 rest

/-- The outer loop (src/main.py:292-304): walk the district's residences
in order, appending to `residences` and threading `residents` through the
unit walk. -/
def districtResLoop (sim : JVal)
    (residences residents : List (JVal × String)) :
    List JVal → Except PyErr (List (JVal × String) × List (JVal × String))
  | [] => .ok (residences, residents)
  | residence_id :: rest => do
    let residence ← (← sim.getField "gameobjects").getField (pyStr residence_id)
    let nm ← residence.getField "name"
    let residences2 := residences ++ [(nm, "../gameobjects/" ++ pyStr residence_id ++ ".html")]
    let units_v ← (← (← residence.getField "components").getField "ResidentialBuilding").getField "units"
    let unit_ids ← units_v.asList
    let residents2 ← unitsLoop sim residents unit_ids
    districtResLoop sim residences2 residents2 rest

/-- The shaped data handed to the `district.jinja` template, plus the
output file path. -/
structure DistrictPage where
  district_name : JVal
  population : JVal
  description : JVal
  settlement_name : JVal
  residences : List (JVal × String)
  businesses : List (JVal × String)
  residents : List (JVal × String)
  settlement : JVal × String
  out_file : String
deriving Repr

/-- `generate_district_page` (src/main.py:275-329). -/
def generate_district_page (sim gameobject : JVal) :
    Except PyErr DistrictPage := do
  let district_name ← gameobject.getField "name"
  let population ← (← (← gameobject.getField "components").getField "District").getWithDefault "population" (.i (-1))
  let description ← (← (← gameobject.getField "components").getField "District").getWithDefault "description" (.s "N/A")
  let settlement_id ← (← (← gameobject.getField "components").getField "District").getField "settlement"
  let settlement_name ← (← (← sim.getField "gameobjects").getField (pyStr settlement_id)).getField "name"
  let settlement := (settlement_name, "../gameobjects/" ++ pyStr settlement_id ++ ".html")
  let residences_v ← (← (← gameobject.getField "components").getField "District").getField "residences"
  let residence_ids ← residences_v.asList
  let resPair ← districtResLoop sim [] [] residence_ids
  let businesses_v ← (← (← gameobject.getField "components").getField "District").getField "businesses"
  let business_ids ← businesses_v.asList
  let businesses ← mapE business_ids (fun business_id => do
    let business ← (← sim.getField "gameobjects").getField (pyStr business_id)
    return (← business.getField "name", "../gameobjects/" ++ pyStr business_id ++ ".html"))
  let id ← gameobject.getField "id"
  return {
    district_name := district_name
    population := population
    description := description
    settlement_name := settlement_name
    residences := resPair.1
    businesses := businesses
    residents := resPair.2
    settlement := settlement
    out_file := "gameobjects/" ++ pyStr id ++ ".html" }

/-- An entity whose component bag holds both "Character" and "Business". -/
def entryCB : JVal :=
  .obj [("id", .i 7), ("name", .s "Janet"),
    ("components", .obj [("Character", .obj [("age", .i 40)]),
      ("Business", .obj [("district", .i 2)])])]

/-- A settlement entity: concrete input for the C1 agreement theorem. -/
def entryC1w : JVal :=
  .obj [("id", .i 1), ("name", .s "Ashton"),
    ("components", .obj [("Settlement", .obj [("districts", .arr [])])])]

/-- An entity holding both the Character and Business keys: concrete
input for the C2 dispatch theorem. -/
def entryC2w : JVal :=
  .obj [("id", .i 9), ("name", .s "Kim"),
    ("components", .obj [("Character", .obj []), ("Business", .obj [])])]

/-- A snapshot holding one district and one business (id 6, no "Active"
key): concrete input for the business-page theorems. -/
def simBW : JVal := .obj [("gameobjects", .obj [
  ("2", .obj [("id", .i 2), ("name", .s "Old Town"),
    ("components", .obj [("District", .obj [("settlement", .i 1)])])]),
  ("6", .obj [("id", .i 6), ("name", .s "Shop"),
    ("components", .obj [("Business", .obj [("district", .i 2)]),
      ("Traits", .obj [("traits", .arr [])])])])])]

/-- The business entity of `simBW`. -/
def bizW : JVal :=
  .obj [("id", .i 6), ("name", .s "Shop"),
    ("components", .obj [("Business", .obj [("district", .i 2)]),
      ("Traits", .obj [("traits", .arr [])])])]

/-- The page `generate_business_page` shapes for `bizW`. -/
def bizPageW : BusinessPage := {
  business_name := .s "Shop"
  activity_status := "Inactive"
  district_name := .s "Old Town"
  district_link := "../gameobjects/2.html"
  owner_name := "TBD"
  owner_link := "#"
  frequented_by := []
  traits := []
  events := []
  out_file := "gameobjects/6.html" }

/-- The component bag of `bizW`. -/
def csBW : List (String × JVal) :=
  [("Business", .obj [("district", .i 2)]),
   ("Traits", .obj [("traits", .arr [])])]

/-- The component bag of the concrete character `charW`: all mandatory
components, no "Resident", no "Occupation". -/
def csCW : List (String × JVal) :=
  [("Character", .obj [("age", .i 20), ("sex", .s "M"),
      ("life_stage", .s "Adult"), ("species", .s "human")]),
   ("Traits", .obj [("traits", .arr [])]),
   ("Skills", .obj []),
   ("FrequentedLocations", .obj [("locations", .arr [])]),
   ("Relationships", .obj [("outgoing", .obj [])])]

/-- A character with neither residence nor occupation. -/
def charW : JVal :=
  .obj [("id", .i 5), ("name", .s "Bo"), ("components", .obj csCW)]

/-- A snapshot holding only `charW`. -/
def simCW : JVal := .obj [("gameobjects", .obj [("5", charW)])]

/-- The page `generate_character_page` shapes for `charW`. -/
def charPageW : CharacterPage := {
  character_name := .s "Bo"
  activity_status := "Inactive"
  age := .i 20
  sex := .s "M"
  life_stage := .s "Adult"
  species := .s "human"
  residence_name := .s "N/A"
  residence_link := "#"
  occupation_name := .s "N/A"
  occupation_link := "#"
  traits := []
  skills := []
  frequented_locations := []
  relationships := []
  events := []
  out_file := "gameobjects/5.html" }

/-- The component bag of the concrete resident character `charR`. -/
def csR : List (String × JVal) :=
  [("Character", .obj [("age", .i 30), ("sex", .s "F"),
      ("life_stage", .s "Adult"), ("species", .s "human")]),
   ("Resident", .obj [("residence", .i 4)]),
   ("Traits", .obj [("traits", .arr [])]),
   ("Skills", .obj []),
   ("FrequentedLocations", .obj [("locations", .arr [])]),
   ("Relationships", .obj [("outgoing", .obj [])])]

/-- A character living in unit 4 of building 3. -/
def charR : JVal :=
  .obj [("id", .i 5), ("name", .s "Alice"), ("components", .obj csR)]

/-- A snapshot where unit 4 has parent building 3 ("House"). -/
def simR : JVal := .obj [("gameobjects", .obj [
  ("3", .obj [("id", .i 3), ("name", .s "House"),
    ("components", .obj [("ResidentialBuilding", .obj [("district", .i 2),
      ("units", .arr [.i 4])])])]),
  ("4", .obj [("id", .i 4), ("name", .s "Unit4"), ("parent", .i 3),
    ("components", .obj [("Residence", .obj [("residents", .arr [.i 5])])])]),
  ("5", charR)])]

/-- The page `generate_character_page` shapes for `charR`. -/
def charPageR : CharacterPage := {
  character_name := .s "Alice"
  activity_status := "Inactive"
  age := .i 30
  sex := .s "F"
  life_stage := .s "Adult"
  species := .s "human"
  residence_name := .s "House"
  residence_link := "../gameobjects/3.html"
  occupation_name := .s "N/A"
  occupation_link := "#"
  traits := []
  skills := []
  frequented_locations := []
  relationships := []
  events := []
  out_file := "gameobjects/5.html" }

/-- The component bag of `charNoSkills`: complete except for "Skills". -/
def csNS : List (String × JVal) :=
  [("Character", .obj [("age", .i 20), ("sex", .s "M"),
      ("life_stage", .s "Adult"), ("species", .s "human")]),
   ("Traits", .obj [("traits", .arr [])]),
   ("FrequentedLocations", .obj [("locations", .arr [])]),
   ("Relationships", .obj [("outgoing", .obj [])])]

/-- A character whose bag lacks the "Skills" key. -/
def charNoSkills : JVal :=
  .obj [("id", .i 8), ("name", .s "Ned"), ("components", .obj csNS)]

/-- A snapshot holding only `charNoSkills`. -/
def simNS : JVal := .obj [("gameobjects", .obj [("8", charNoSkills)])]

/-- The resident chunk contributed by one unit: its resident ids in
listed order, each shaped by `residentPair`. -/
def unitChunk (sim unit_id : JVal) : Except PyErr (List (JVal × String)) := do
  let rids ← unitResidentIds sim unit_id
  mapE rids (residentPair sim)

/-- The resident chunk contributed by one residence: the chunks of its
units in listed order, concatenated. -/
def districtResidenceChunk (sim residence_id : JVal) :
    Except PyErr (List (JVal × String)) := do
  let residence ← (← sim.getField "gameobjects").getField (pyStr residence_id)
  let rb ← (← residence.getField "components").getField "ResidentialBuilding"
  let unit_ids ← (← rb.getField "units").asList
  let unitChunks ← mapE unit_ids (unitChunk sim)
  return unitChunks.flatten

/-- The resident ordering the spec prescribes for a district page:
residence by residence in listed order, within each residence unit by
unit in listed order, within each unit resident by resident in listed
order — a nested concatenation with no re-sorting or deduplication. -/
def districtResidentsSpec (sim : JVal) (residence_ids : List JVal) :
    Except PyErr (List (JVal × String)) := do
  let chunks ← mapE residence_ids (districtResidenceChunk sim)
  return chunks.flatten

/-- The district's residence id list
(`gameobject["components"]["District"]["residences"]`). -/
def districtResidenceIds (gameobject : JVal) : Except PyErr (List JVal) := do
  let residences_v ← (← (← gameobject.getField "components").getField "District").getField "residences"
  residences_v.asList

/-- A district with residences 3 and 6 (in that order). -/
def districtD : JVal :=
  .obj [("id", .i 2), ("name", .s "Old Town"),
    ("components", .obj [("District", .obj [("settlement", .i 1),
      ("residences", .arr [.i 3, .i 6]), ("businesses", .arr [])])])]

/-- A snapshot where residence 3 has unit 4 (resident Alice) and
residence 6 has units 7 (resident Bob) and 8 (residents Cai and Bob
again — residents are not deduplicated). -/
def simD : JVal := .obj [("gameobjects", .obj [
  ("1", .obj [("id", .i 1), ("name", .s "Ashton"),
    ("components", .obj [("Settlement", .obj [("districts", .arr [.i 2])])])]),
  ("2", districtD),
  ("3", .obj [("id", .i 3), ("name", .s "House3"),
    ("components", .obj [("ResidentialBuilding", .obj [("district", .i 2),
      ("units", .arr [.i 4])])])]),
  ("4", .obj [("id", .i 4), ("name", .s "Unit4"), ("parent", .i 3),
    ("components", .obj [("Residence", .obj [("residents", .arr [.i 5])])])]),
  ("5", .obj [("id", .i 5), ("name", .s "Alice"), ("components", .obj [])]),
  ("6", .obj [("id", .i 6), ("name", .s "House6"),
    ("components", .obj [("ResidentialBuilding", .obj [("district", .i 2),
      ("units", .arr [.i 7, .i 8])])])]),
  ("7", .obj [("id", .i 7), ("name", .s "Unit7"), ("parent", .i 6),
    ("components", .obj [("Residence", .obj [("residents", .arr [.i 9])])])]),
  ("8", .obj [("id", .i 8), ("name", .s "Unit8"), ("parent", .i 6),
    ("components", .obj [("Residence", .obj [("residents",
      .arr [.i 10, .i 9])])])]),
  ("9", .obj [("id", .i 9), ("name", .s "Bob"), ("components", .obj [])]),
  ("10", .obj [("id", .i 10), ("name", .s "Cai"),
    ("components", .obj [])])])]

/-- The page `generate_district_page` shapes for `districtD`. -/
def districtPageD : DistrictPage := {
  district_name := .s "Old Town"
  population := .i (-1)
  description := .s "N/A"
  settlement_name := .s "Ashton"
  residences := [(.s "House3", "../gameobjects/3.html"),
    (.s "House6", "../gameobjects/6.html")]
  businesses := []
  residents := [(.s "Alice", "../gameobjects/5.html"),
    (.s "Bob", "../gameobjects/9.html"),
    (.s "Cai", "../gameobjects/10.html"),
    (.s "Bob", "../gameobjects/9.html")]
  settlement := (.s "Ashton", "../gameobjects/1.html")
  out_file := "gameobjects/2.html" }

/-- A link of the entity-page form `../gameobjects/<id>.html`. -/
def entityRelLink (s : String) : Prop :=
  ∃ x, s = "../gameobjects/" ++ x ++ ".html"

/-- A link of the root-relative homepage form `/gameobjects/<id>.html`. -/
def rootLink (s : String) : Prop :=
  ∃ x, s = "/gameobjects/" ++ x ++ ".html"

/-- Every link emitted into a settlement page. -/
def settlementPageLinks (p : SettlementPage) : List String :=
  p.districts.map Prod.snd

/-- Every link emitted into a district page. -/
def districtPageLinks (p : DistrictPage) : List String :=
  [p.settlement.2] ++ p.residences.map Prod.snd ++
    p.residents.map Prod.snd ++ p.businesses.map Prod.snd

/-- Every link emitted into a business page. -/
def businessPageLinks (p : BusinessPage) : List String :=
  [p.district_link, p.owner_link]

/-- Every link emitted into a character page. -/
def characterPageLinks (p : CharacterPage) : List String :=
  [p.residence_link, p.occupation_link] ++
    p.frequented_locations.map Prod.snd ++
    p.relationships.map RelationshipInfo.target_link

/-- Every link emitted into a residence page. -/
def residencePageLinks (p : ResidencePage) : List String :=
  [p.district.2] ++ (p.units.map (fun u => u.residents.map Prod.snd)).flatten

/-- Every link emitted into the homepage. -/
def homePageLinks (h : HomePage) : List String :=
  h.settlements.map Prod.snd ++ h.districts.map Prod.snd ++
    h.businesses.map Prod.snd ++ h.characters.map Prod.snd

/-- The settlement entity of `simD`. -/
def settlementW : JVal :=
  .obj [("id", .i 1), ("name", .s "Ashton"),
    ("components", .obj [("Settlement", .obj [("districts",
      .arr [.i 2])])])]

/-! ## Lemmas and claim theorems -/

-- Inversion lemmas for the `Except PyErr` monad.

theorem bind_ok_iff {α β : Type} {x : Except PyErr α} {f : α → Except PyErr β}
    {b : β} : (x >>= f) = .ok b ↔ ∃ a, x = .ok a ∧ f a = .ok b := by
  cases x <;> simp [Bind.bind, Except.bind]

theorem pure_ok_iff {α : Type} {a b : α} :
    (pure a : Except PyErr α) = .ok b ↔ a = b := by
  simp [pure, Except.pure]

theorem ok_bind {α β : Type} (a : α) (f : α → Except PyErr β) :
    ((Except.ok a : Except PyErr α) >>= f) = f a := rfl

/-- If every successful element result satisfies `P`, every element of a
successful `mapE` run satisfies `P`. -/
theorem mapE_ok_forall {α β : Type} {f : α → Except PyErr β} {P : β → Prop}
    (hf : ∀ x y, f x = .ok y → P y) :
    ∀ {xs : List α} {ys : List β}, mapE xs f = .ok ys → ∀ y ∈ ys, P y := by
  intro xs
  induction xs with
  | nil =>
    intro ys h
    simp [mapE] at h
    subst h
    intro y hy
    simp at hy
  | cons x rest ih =>
    intro ys h
    simp only [mapE, bind_ok_iff, pure_ok_iff] at h
    obtain ⟨y0, hy0, ys0, hys0, hcons⟩ := h
    subst hcons
    intro y hy
    rcases List.mem_cons.mp hy with h1 | h1
    · subst h1; exact hf x y hy0
    · exact ih hys0 y h1

/-- When each `f`-success determines a `g`-success through `t`, a
successful `mapE` over `f` determines a successful `mapE` over `g`. -/
theorem mapE_ok_map {α β γ : Type} {f : α → Except PyErr β}
    {g : α → Except PyErr γ} {t : β → γ}
    (hf : ∀ x y, f x = .ok y → g x = .ok (t y)) :
    ∀ {xs : List α} {ys : List β}, mapE xs f = .ok ys →
      mapE xs g = .ok (ys.map t) := by
  intro xs
  induction xs with
  | nil =>
    intro ys h
    simp [mapE] at h
    subst h
    simp [mapE]
  | cons x rest ih =>
    intro ys h
    simp only [mapE, bind_ok_iff, pure_ok_iff] at h
    obtain ⟨y0, hy0, ys0, hys0, hcons⟩ := h
    subst hcons
    simp only [mapE, bind_ok_iff, pure_ok_iff]
    exact ⟨t y0, hf x y0 hy0, ys0.map t, ih hys0, rfl⟩

theorem dispatch_obj {gameobject : JVal} {cs : List (String × JVal)}
    (hc : gameobject.getField "components" = .ok (.obj cs)) :
    dispatch gameobject = .ok (dKeys cs) := by
  simp only [dispatch, hc, ok_bind, JVal.hasKeyE, dKeys]
  by_cases h1 : hasK cs "Settlement" <;>
    by_cases h2 : hasK cs "District" <;>
      by_cases h3 : hasK cs "Character" <;>
        by_cases h4 : hasK cs "Business" <;>
          by_cases h5 : hasK cs "ResidentialBuilding" <;>
            simp [h1, h2, h3, h4, h5, ok_bind, pure, Except.pure]

theorem homeKind_obj {entry : JVal} {cs : List (String × JVal)}
    (hc : entry.getField "components" = .ok (.obj cs)) :
    homeKind entry = .ok (hKeys cs) := by
  simp only [homeKind, hc, ok_bind, JVal.hasKeyE, hKeys]
  by_cases h1 : hasK cs "Settlement" <;>
    by_cases h2 : hasK cs "District" <;>
      by_cases h3 : hasK cs "Business" <;>
        by_cases h4 : hasK cs "Character" <;>
          simp [h1, h2, h3, h4, ok_bind, pure, Except.pure]

/-! ## Claim C3 -/

/-- C3: for every input pair (snapshot, entity), `generate_trait_page` and
`generate_skill_page` raise `NotImplementedError`: they never return
normally, so no page data is shaped and no output file is written. -/
theorem C3_trait_skill_unimplemented (sim gameobject : JVal) :
    generate_trait_page sim gameobject = .error .notImplementedError ∧
    generate_skill_page sim gameobject = .error .notImplementedError :=
  ⟨rfl, rfl⟩

/-! ## Claim C1

The dispatcher (`main`) tests Character BEFORE Business, while
`generate_home_page` tests Business BEFORE Character, so an entity whose
bag holds both keys (and neither Settlement nor District) is dispatched
as a Character but bucketed on the homepage as a Business: the two
functions do NOT use the same kind-priority test. -/

/-- C1 counterexample: on `entryCB` the dispatcher selects Character (its
third test) while the homepage selects Business (its third test), and
the Character dispatch kind does not land in the Business bucket — the
claimed agreement under the order Settlement > District > Character >
Business fails. -/
theorem C1_counterexample :
    dispatch entryCB = .ok (some Kind.character) ∧
    homeKind entryCB = .ok (some HomeKind.business) ∧
    kindToHome Kind.character ≠ some HomeKind.business :=
  ⟨rfl, rfl, by decide⟩

/-- C1 (amended): the homepage classifies by first match in the order
Settlement > District > Business > Character — Business before
Character, unlike the dispatcher — so the two functions select the same
kind for every entity except one whose bag holds both Character and
Business and neither Settlement nor District (restricted to the four
homepage kinds: the dispatcher's ResidentialBuilding match lands in no
homepage bucket). -/
theorem C1_homepage_dispatch_agreement (entry : JVal)
    (cs : List (String × JVal))
    (hc : entry.getField "components" = .ok (.obj cs))
    (h : ¬(hasK cs "Character" = true ∧ hasK cs "Business" = true ∧
      hasK cs "Settlement" = false ∧ hasK cs "District" = false)) :
    ∃ k, dispatch entry = .ok k ∧ homeKind entry = .ok (k.bind kindToHome) := by
  refine ⟨dKeys cs, dispatch_obj hc, ?_⟩
  rw [homeKind_obj hc]
  congr 1
  unfold dKeys hKeys
  by_cases h1 : hasK cs "Settlement" = true <;>
    by_cases h2 : hasK cs "District" = true <;>
      by_cases h3 : hasK cs "Character" = true <;>
        by_cases h4 : hasK cs "Business" = true <;>
          by_cases h5 : hasK cs "ResidentialBuilding" = true <;>
            simp [h1, h2, h3, h4, h5, kindToHome] <;>
              exact absurd ⟨h3, h4, by simp [h1], by simp [h2]⟩ h

/-- Witness for C1: the agreement theorem applied to a concrete
settlement entity. -/
theorem C1_witness :
    ∃ k, dispatch entryC1w = .ok k ∧
      homeKind entryC1w = .ok (k.bind kindToHome) :=
  C1_homepage_dispatch_agreement entryC1w
    [("Settlement", .obj [("districts", .arr [])])] rfl (by decide)

/-! ## Claim C2 -/

/-- C2: on an entity whose component bag is a dict, `main`'s dispatch
chain invokes no generator when none of the five kind keys is present,
and invokes exactly the generator of kind `k` whenever `k`'s key is
present and every key tested earlier (in the order Settlement > District
> Character > Business > ResidentialBuilding) is absent. -/
theorem C2_dispatch_first_match (entry : JVal) (cs : List (String × JVal))
    (hc : entry.getField "components" = .ok (.obj cs)) :
    ((∀ k : Kind, hasK cs (kindKey k) = false) →
      dispatch entry = .ok none) ∧
    (∀ k : Kind, hasK cs (kindKey k) = true →
      (∀ k2 : Kind, kindPrio k2 < kindPrio k → hasK cs (kindKey k2) = false) →
      dispatch entry = .ok (some k)) := by
  rw [dispatch_obj hc]
  constructor
  · intro h
    have hS := h .settlement
    have hD := h .district
    have hC := h .character
    have hB := h .business
    have hR := h .residentialBuilding
    simp only [kindKey] at hS hD hC hB hR
    simp [dKeys, hS, hD, hC, hB, hR]
  · intro k hk hprio
    cases k with
    | settlement =>
      have hk' : hasK cs "Settlement" = true := hk
      simp [dKeys, hk']
    | district =>
      have hk' : hasK cs "District" = true := hk
      have hS : hasK cs "Settlement" = false := hprio .settlement (by decide)
      simp [dKeys, hk', hS]
    | character =>
      have hk' : hasK cs "Character" = true := hk
      have hS : hasK cs "Settlement" = false := hprio .settlement (by decide)
      have hD : hasK cs "District" = false := hprio .district (by decide)
      simp [dKeys, hk', hS, hD]
    | business =>
      have hk' : hasK cs "Business" = true := hk
      have hS : hasK cs "Settlement" = false := hprio .settlement (by decide)
      have hD : hasK cs "District" = false := hprio .district (by decide)
      have hC : hasK cs "Character" = false := hprio .character (by decide)
      simp [dKeys, hk', hS, hD, hC]
    | residentialBuilding =>
      have hk' : hasK cs "ResidentialBuilding" = true := hk
      have hS : hasK cs "Settlement" = false := hprio .settlement (by decide)
      have hD : hasK cs "District" = false := hprio .district (by decide)
      have hC : hasK cs "Character" = false := hprio .character (by decide)
      have hB : hasK cs "Business" = false := hprio .business (by decide)
      simp [dKeys, hk', hS, hD, hC, hB]

/-- Witness for C2: on an entity holding both Character and Business the
dispatcher invokes exactly the Character generator (the first match). -/
theorem C2_witness : dispatch entryC2w = .ok (some Kind.character) :=
  (C2_dispatch_first_match entryC2w
    [("Character", .obj []), ("Business", .obj [])] rfl).2
    .character (by decide)
    (by
      intro k2 hk2
      cases k2 <;> first | rfl | simp [kindPrio] at hk2)

/-! ## Claim C8 -/

/-- C8: whatever the snapshot holds, a successfully generated business
page carries the owner placeholders "TBD"/"#" and empty "frequented by"
and "events" lists. -/
theorem C8_business_placeholders (sim g : JVal) (p : BusinessPage)
    (hp : generate_business_page sim g = .ok p) :
    p.owner_name = "TBD" ∧ p.owner_link = "#" ∧
    p.frequented_by = [] ∧ p.events = [] := by
  simp only [generate_business_page, bind_ok_iff, pure_ok_iff] at hp
  obtain ⟨a1, h1, a2, h2, b, h3, a4, h4, a5, h5, a6, h6, a7, h7, a8, h8,
    a9, h9, a10, h10, a11, h11, hrec⟩ := hp
  subst hrec
  exact ⟨rfl, rfl, rfl, rfl⟩

/-- Witness for C8: the placeholder theorem applied to the concrete
business `bizW`. -/
theorem C8_witness :
    bizPageW.owner_name = "TBD" ∧ bizPageW.owner_link = "#" ∧
    bizPageW.frequented_by = [] ∧ bizPageW.events = [] :=
  C8_business_placeholders simBW bizW bizPageW rfl

/-! ## Claim C7 -/

/-- C7: a business page's `activity_status` is "Active" exactly when the
component bag holds the "Active" key and "Inactive" otherwise, and the
homepage label built for a business entry is its name suffixed with
" (inactive)" exactly when the "Active" key is absent (no suffix when
present). -/
theorem C7_business_active_status (sim g entry : JVal)
    (cs cs2 : List (String × JVal)) (p : BusinessPage)
    (lbl : String × String) (nm : JVal)
    (hc : g.getField "components" = .ok (.obj cs))
    (hp : generate_business_page sim g = .ok p)
    (hc2 : entry.getField "components" = .ok (.obj cs2))
    (hn : entry.getField "name" = .ok nm)
    (hl : homeEntryLabeledPair entry = .ok lbl) :
    p.activity_status = (if hasK cs "Active" then "Active" else "Inactive") ∧
    lbl.1 = pyStr nm ++ (if hasK cs2 "Active" then "" else " (inactive)") := by
  constructor
  · simp only [generate_business_page, bind_ok_iff, pure_ok_iff] at hp
    obtain ⟨a1, h1, a2, h2, b, h3, a4, h4, a5, h5, a6, h6, a7, h7, a8, h8,
      a9, h9, a10, h10, a11, h11, hrec⟩ := hp
    rw [hc] at h2
    cases h2
    simp only [JVal.hasKeyE, Except.ok.injEq] at h3
    subst h3
    subst hrec
    rfl
  · simp only [homeEntryLabeledPair, bind_ok_iff, pure_ok_iff] at hl
    obtain ⟨b1, g1, b2, g2, b3, g3, b4, g4, hrec⟩ := hl
    rw [hc2] at g1
    cases g1
    simp only [JVal.hasKeyE, Except.ok.injEq] at g2
    subst g2
    rw [hn] at g3
    cases g3
    subst hrec
    by_cases hA : hasK cs2 "Active" = true <;> simp [hA]

/-- Witness for C7: applied to the concrete business `bizW` (no "Active"
key), both as the page subject and as the homepage entry. -/
theorem C7_witness :
    bizPageW.activity_status =
      (if hasK csBW "Active" then "Active" else "Inactive") ∧
    ("Shop (inactive)", "/gameobjects/6.html").1 =
      pyStr (.s "Shop") ++ (if hasK csBW "Active" then "" else " (inactive)") :=
  C7_business_active_status simBW bizW bizW csBW csBW bizPageW
    ("Shop (inactive)", "/gameobjects/6.html") (.s "Shop")
    rfl rfl rfl rfl rfl

/-! ## Inversion helpers for the character page -/

/-- A bag without key `k` looks it up as `none`. -/
theorem lookup_none_of_hasK_false {cs : List (String × JVal)} {k : String}
    (h : hasK cs k = false) : lookupKey cs k = none := by
  unfold hasK at h
  cases hlk : lookupKey cs k with
  | none => rfl
  | some v => rw [hlk] at h; simp at h

/-- A successful subscript of a dict means the key is present. -/
theorem hasK_of_getField_ok {cs : List (String × JVal)} {k : String} {v : JVal}
    (h : JVal.getField (.obj cs) k = .ok v) : hasK cs k = true := by
  unfold hasK
  cases hlk : lookupKey cs k with
  | none => simp [JVal.getField, hlk] at h
  | some w => simp [hlk]

/-- With no "Resident" key in the bag, the residence block yields the
sentinels. -/
theorem characterResidencePair_absent {sim g : JVal}
    {cs : List (String × JVal)}
    (hc : g.getField "components" = .ok (.obj cs))
    (hres : hasK cs "Resident" = false) :
    characterResidencePair sim g = .ok (JVal.s "N/A", "#") := by
  simp [characterResidencePair, residencePairOfOpt, hc, ok_bind,
    JVal.getOpt, lookup_none_of_hasK_false hres, pure, Except.pure]

/-- With no "Occupation" key in the bag, the occupation block yields the
sentinels. -/
theorem characterOccupationPair_absent {sim g : JVal}
    {cs : List (String × JVal)}
    (hc : g.getField "components" = .ok (.obj cs))
    (hocc : hasK cs "Occupation" = false) :
    characterOccupationPair sim g = .ok (JVal.s "N/A", "#") := by
  simp [characterOccupationPair, occupationPairOfOpt, hc, ok_bind,
    JVal.getOpt, lookup_none_of_hasK_false hocc, pure, Except.pure]

/-! ## Claim C4 -/

/-- C4: a successfully generated character page renders the sentinels
"N/A"/"#" for the residence when the component bag has no "Resident"
key, and likewise for the occupation when the bag has no "Occupation"
key. -/
theorem C4_character_defaults (sim g : JVal) (cs : List (String × JVal))
    (p : CharacterPage)
    (hc : g.getField "components" = .ok (.obj cs))
    (hp : generate_character_page sim g = .ok p) :
    (hasK cs "Resident" = false →
      p.residence_name = .s "N/A" ∧ p.residence_link = "#") ∧
    (hasK cs "Occupation" = false →
      p.occupation_name = .s "N/A" ∧ p.occupation_link = "#") := by
  simp only [generate_character_page, bind_ok_iff, pure_ok_iff] at hp
  obtain ⟨a1, h1, a2, h2, a3, h3, a4, h4, a5, h5, a6, h6, a7, h7, a8, h8,
    a9, h9, a10, h10, a11, h11, a12, h12, a13, h13, a14, h14, a15, h15,
    a16, h16, a17, h17, a18, h18, a19, h19, a20, h20, a21, h21, a22, h22,
    a23, h23, a24, h24, a25, h25, a26, h26, a27, h27, a28, h28, a29, h29,
    a30, h30, a31, h31, a32, h32, a33, h33, hrec⟩ := hp
  subst hrec
  constructor
  · intro hres
    rw [characterResidencePair_absent hc hres] at h16
    injection h16 with e16
    subst e16
    exact ⟨rfl, rfl⟩
  · intro hocc
    rw [characterOccupationPair_absent hc hocc] at h17
    injection h17 with e17
    subst e17
    exact ⟨rfl, rfl⟩

/-- Witness for C4: the sentinel defaults on the concrete character
`charW`. -/
theorem C4_witness :
    (charPageW.residence_name = .s "N/A" ∧ charPageW.residence_link = "#") ∧
    (charPageW.occupation_name = .s "N/A" ∧ charPageW.occupation_link = "#") :=
  ⟨(C4_character_defaults simCW charW csCW charPageW rfl rfl).1 rfl,
   (C4_character_defaults simCW charW csCW charPageW rfl rfl).2 rfl⟩

/-! ## Claim C9 -/

/-- With a truthy "Resident" component, the residence block of the
character page resolves the (name, link) pair through the PARENT building
of the resident's unit: the unit gameobject's `"parent"` field names the
building whose name and id are rendered. -/
theorem characterResidencePair_present {sim g : JVal}
    {cs : List (String × JVal)} {rd ridv gos unitgo bid bgo bname : JVal}
    (hc : g.getField "components" = .ok (.obj cs))
    (hrd : lookupKey cs "Resident" = some rd)
    (htr : rd.truthy = true)
    (hrid : rd.getField "residence" = .ok ridv)
    (hgos : sim.getField "gameobjects" = .ok gos)
    (hunit : gos.getField (pyStr ridv) = .ok unitgo)
    (hpar : unitgo.getField "parent" = .ok bid)
    (hbgo : gos.getField (pyStr bid) = .ok bgo)
    (hname : bgo.getField "name" = .ok bname) :
    characterResidencePair sim g =
      .ok (bname, "../gameobjects/" ++ pyStr bid ++ ".html") := by
  simp [characterResidencePair, residencePairOfOpt, hc, ok_bind,
    JVal.getOpt, hrd, htr, hrid, hgos, hunit, hpar, hbgo, hname, pure,
    Except.pure]

/-- C9: when a character has a (truthy) "Resident" component, the
rendered residence name and link refer to the parent building of the
resident's unit — the building id read from the unit gameobject's
`"parent"` field — not to the unit itself. -/
theorem C9_residence_parent_building (sim g : JVal)
    (cs : List (String × JVal)) (rd ridv gos unitgo bid bgo bname : JVal)
    (p : CharacterPage)
    (hc : g.getField "components" = .ok (.obj cs))
    (hrd : lookupKey cs "Resident" = some rd)
    (htr : rd.truthy = true)
    (hrid : rd.getField "residence" = .ok ridv)
    (hgos : sim.getField "gameobjects" = .ok gos)
    (hunit : gos.getField (pyStr ridv) = .ok unitgo)
    (hpar : unitgo.getField "parent" = .ok bid)
    (hbgo : gos.getField (pyStr bid) = .ok bgo)
    (hname : bgo.getField "name" = .ok bname)
    (hp : generate_character_page sim g = .ok p) :
    p.residence_name = bname ∧
    p.residence_link = "../gameobjects/" ++ pyStr bid ++ ".html" := by
  simp only [generate_character_page, bind_ok_iff, pure_ok_iff] at hp
  obtain ⟨a1, h1, a2, h2, a3, h3, a4, h4, a5, h5, a6, h6, a7, h7, a8, h8,
    a9, h9, a10, h10, a11, h11, a12, h12, a13, h13, a14, h14, a15, h15,
    a16, h16, a17, h17, a18, h18, a19, h19, a20, h20, a21, h21, a22, h22,
    a23, h23, a24, h24, a25, h25, a26, h26, a27, h27, a28, h28, a29, h29,
    a30, h30, a31, h31, a32, h32, a33, h33, hrec⟩ := hp
  subst hrec
  rw [characterResidencePair_present hc hrd htr hrid hgos hunit hpar hbgo
    hname] at h16
  injection h16 with e16
  subst e16
  exact ⟨rfl, rfl⟩

/-- Witness for C9: Alice lives in unit 4 whose parent is building 3
("House"); her page links to building 3, not unit 4. -/
theorem C9_witness :
    charPageR.residence_name = .s "House" ∧
    charPageR.residence_link = "../gameobjects/" ++ pyStr (.i 3) ++ ".html" :=
  C9_residence_parent_building simR charR csR
    (.obj [("residence", .i 4)]) (.i 4)
    ((simR.getField "gameobjects").toOption.getD .null)
    ((((simR.getField "gameobjects").toOption.getD .null).getField
      "4").toOption.getD .null)
    (.i 3)
    ((((simR.getField "gameobjects").toOption.getD .null).getField
      "3").toOption.getD .null)
    (.s "House") charPageR
    rfl rfl rfl rfl rfl rfl rfl rfl rfl rfl

/-! ## Claim C10 -/

/-- A successful trait-shaping run means the "Traits" key was present in
the owner's component bag. -/
theorem shapeTraits_ok_hasK {sim g : JVal} {cs : List (String × JVal)}
    {l : List TraitInfo}
    (hc : g.getField "components" = .ok (.obj cs))
    (h : shapeTraits sim g = .ok l) : hasK cs "Traits" = true := by
  simp only [shapeTraits, bind_ok_iff, pure_ok_iff] at h
  obtain ⟨c1, hc1, c2, hc2, c3, hc3, c4, hc4, hm⟩ := h
  rw [hc] at hc1
  injection hc1 with e
  subst e
  exact hasK_of_getField_ok hc2

/-- A successful character page requires all four of the "Traits",
"Skills", "FrequentedLocations" and "Relationships" keys. -/
theorem character_ok_requires {sim g : JVal} {cs : List (String × JVal)}
    {p : CharacterPage}
    (hc : g.getField "components" = .ok (.obj cs))
    (hp : generate_character_page sim g = .ok p) :
    hasK cs "Traits" = true ∧ hasK cs "Skills" = true ∧
    hasK cs "FrequentedLocations" = true ∧
    hasK cs "Relationships" = true := by
  simp only [generate_character_page, bind_ok_iff, pure_ok_iff] at hp
  obtain ⟨a1, h1, a2, h2, a3, h3, a4, h4, a5, h5, a6, h6, a7, h7, a8, h8,
    a9, h9, a10, h10, a11, h11, a12, h12, a13, h13, a14, h14, a15, h15,
    a16, h16, a17, h17, a18, h18, a19, h19, a20, h20, a21, h21, a22, h22,
    a23, h23, a24, h24, a25, h25, a26, h26, a27, h27, a28, h28, a29, h29,
    a30, h30, a31, h31, a32, h32, a33, h33, hrec⟩ := hp
  rw [hc] at h19 h23 h28
  injection h19 with e19
  subst e19
  injection h23 with e23
  subst e23
  injection h28 with e28
  subst e28
  exact ⟨shapeTraits_ok_hasK hc h18, hasK_of_getField_ok h20,
    hasK_of_getField_ok h24, hasK_of_getField_ok h29⟩

/-- C10: the "Traits", "Skills", "FrequentedLocations" and
"Relationships" components are mandatory for the character page: when
the bag lacks any one of them, generation fails with an error (the plain
subscript raises a lookup error) instead of substituting an empty list —
in contrast to the sentinel defaults of the optional "Resident" and
"Occupation" components. -/
theorem C10_character_mandatory_components (sim g : JVal)
    (cs : List (String × JVal))
    (hc : g.getField "components" = .ok (.obj cs))
    (hmiss : hasK cs "Traits" = false ∨ hasK cs "Skills" = false ∨
      hasK cs "FrequentedLocations" = false ∨
      hasK cs "Relationships" = false) :
    ∃ e, generate_character_page sim g = .error e := by
  cases hres : generate_character_page sim g with
  | error e => exact ⟨e, rfl⟩
  | ok p =>
    obtain ⟨hT, hS, hF, hR⟩ := character_ok_requires hc hres
    rcases hmiss with h | h | h | h
    · exact absurd (hT.symm.trans h) (by decide)
    · exact absurd (hS.symm.trans h) (by decide)
    · exact absurd (hF.symm.trans h) (by decide)
    · exact absurd (hR.symm.trans h) (by decide)

/-- Witness for C10: page generation for the skill-less character fails
with an error. -/
theorem C10_witness :
    ∃ e, generate_character_page simNS charNoSkills = .error e :=
  C10_character_mandatory_components simNS charNoSkills csNS rfl
    (Or.inr (Or.inl rfl))

/-! ## Claim C5 -/

theorem map_ok_iff {α β : Type} {e : Except PyErr α} {f : α → β} {b : β} :
    e.map f = .ok b ↔ ∃ a, e = .ok a ∧ f a = b := by
  cases e <;> simp [Except.map]

/-- The inner append-loop equals the order-preserving collection of
shaped resident pairs, prefixed by the accumulator. -/
theorem residentsLoop_eq (sim : JVal) :
    ∀ (rids : List JVal) (acc : List (JVal × String)),
      residentsLoop sim acc rids =
        (mapE rids (residentPair sim)).map (fun l => acc ++ l) := by
  intro rids
  induction rids with
  | nil => intro acc; simp [residentsLoop, mapE, Except.map]
  | cons r rest ih =>
    intro acc
    simp only [residentsLoop, mapE]
    cases hp : residentPair sim r with
    | error e => simp [Bind.bind, Except.bind, Except.map]
    | ok pr =>
      simp only [Bind.bind, Except.bind]
      rw [ih]
      cases hm : mapE rest (residentPair sim) with
      | error e => simp [Except.map]
      | ok l => simp [Except.map, pure, Except.pure]

/-- The unit walk equals the order-preserving concatenation of unit
chunks, prefixed by the accumulator. -/
theorem unitsLoop_eq (sim : JVal) :
    ∀ (uids : List JVal) (acc : List (JVal × String)),
      unitsLoop sim acc uids =
        (mapE uids (unitChunk sim)).map (fun ls => acc ++ ls.flatten) := by
  intro uids
  induction uids with
  | nil => intro acc; simp [unitsLoop, mapE, Except.map]
  | cons u rest ih =>
    intro acc
    simp only [unitsLoop, mapE, unitChunk]
    cases hr : unitResidentIds sim u with
    | error e => simp [Bind.bind, Except.bind, Except.map]
    | ok rids =>
      simp only [Bind.bind, Except.bind]
      rw [residentsLoop_eq]
      cases hm2 : mapE rids (residentPair sim) with
      | error e => simp [Except.map]
      | ok chunk =>
        simp only [Except.map]
        rw [ih]
        cases hm : mapE rest (unitChunk sim) with
        | error e => simp [Except.map]
        | ok ls => simp [Except.map, pure, Except.pure, List.flatten]

/-- The interleaved residence walk of the district page produces, in its
second component, exactly the spec-prescribed nested concatenation
(prefixed by the accumulator). -/
theorem districtResLoop_residents (sim : JVal) :
    ∀ (rids : List JVal) (a b : List (JVal × String)) (rs res : List (JVal × String)),
      districtResLoop sim a b rids = .ok (rs, res) →
      ∃ chunks, mapE rids (districtResidenceChunk sim) = .ok chunks ∧
        res = b ++ chunks.flatten := by
  intro rids
  induction rids with
  | nil =>
    intro a b rs res h
    simp only [districtResLoop] at h
    injection h with h
    injection h with h1 h2
    exact ⟨[], by simp [mapE], by simp [h2]⟩
  | cons r rest ih =>
    intro a b rs res h
    simp only [districtResLoop, bind_ok_iff] at h
    obtain ⟨gos, hgos, residence, hres, nm, hnm, comps, hcomps, rb, hrb,
      units_v, hunits, uids, huids, residents2, hloop, htail⟩ := h
    rw [unitsLoop_eq] at hloop
    rw [map_ok_iff] at hloop
    obtain ⟨ls, hls, hres2⟩ := hloop
    obtain ⟨chunks, hchunks, hresEq⟩ := ih _ _ _ _ htail
    refine ⟨ls.flatten :: chunks, ?_, ?_⟩
    · simp only [mapE, bind_ok_iff, pure_ok_iff]
      refine ⟨ls.flatten, ?_, chunks, hchunks, rfl⟩
      simp only [districtResidenceChunk, bind_ok_iff, pure_ok_iff]
      exact ⟨gos, hgos, residence, hres, comps, hcomps, rb, hrb,
        units_v, hunits, uids, huids, ls, hls, rfl⟩
    · rw [hresEq, ← hres2]
      simp [List.append_assoc]

/-- C5: the flattened resident list of a successfully generated district
page equals the spec-prescribed nested concatenation over the district's
residence ids — residence order, then unit order, then resident order,
with no re-sorting and no deduplication. -/
theorem C5_district_resident_order (sim g : JVal) (p : DistrictPage)
    (rids : List JVal)
    (hrids : districtResidenceIds g = .ok rids)
    (hp : generate_district_page sim g = .ok p) :
    districtResidentsSpec sim rids = .ok p.residents := by
  simp only [generate_district_page, bind_ok_iff, pure_ok_iff] at hp
  obtain ⟨a1, h1, a2, h2, a3, h3, a4, h4, a5, h5, a6, h6, a7, h7, a8, h8,
    a9, h9, a10, h10, a11, h11, a12, h12, a13, h13, a14, h14, a15, h15,
    a16, h16, a17, h17, a18, h18, a19, h19, a20, h20, a21, h21, a22, h22,
    a23, h23, a24, h24, hrec⟩ := hp
  simp only [districtResidenceIds, bind_ok_iff] at hrids
  obtain ⟨b1, hb1, b2, hb2, b3, hb3, hbl⟩ := hrids
  rw [h14] at hb1
  injection hb1 with e1
  subst e1
  rw [h15] at hb2
  injection hb2 with e2
  subst e2
  rw [h16] at hb3
  injection hb3 with e3
  subst e3
  rw [h17] at hbl
  injection hbl with e4
  subst e4
  obtain ⟨rs, res⟩ := a18
  obtain ⟨chunks, hchunks, hresEq⟩ :=
    districtResLoop_residents sim a17 [] [] rs res h18
  subst hrec
  simp only [districtResidentsSpec, bind_ok_iff, pure_ok_iff]
  exact ⟨chunks, hchunks, by simp [hresEq]⟩

/-- Witness for C5: the two-residence district shapes its resident list
in residence/unit/resident order, keeping the duplicate. -/
theorem C5_witness :
    districtResidentsSpec simD [.i 3, .i 6] = .ok districtPageD.residents :=
  C5_district_resident_order simD districtD districtPageD [.i 3, .i 6]
    rfl rfl

/-! ## Claim C6 -/

/-- C6 counterexample: the business page of `bizW` emits the owner pair
with link "#", which is not of the form `../gameobjects/<id>.html` — so
not every (name, link) pair of an entity page carries an entity-page
link. -/
theorem C6_counterexample :
    (generate_business_page simBW bizW).map businessPageLinks =
      .ok ["../gameobjects/2.html", "#"] ∧
    ¬ entityRelLink "#" := by
  constructor
  · rfl
  · rintro ⟨x, hx⟩
    have h := congrArg String.length hx
    rw [String.length_append, String.length_append] at h
    have h1 : ("#" : String).length = 1 := rfl
    have h2 : ("../gameobjects/" : String).length = 15 := rfl
    have h3 : (".html" : String).length = 5 := rfl
    rw [h1, h2, h3] at h
    omega

/-- A shaped resident pair always links as `../gameobjects/<id>.html`. -/
theorem residentPair_link {sim x : JVal} {y : JVal × String}
    (h : residentPair sim x = .ok y) : entityRelLink y.2 := by
  simp only [residentPair, bind_ok_iff, pure_ok_iff] at h
  obtain ⟨gos, hgos, r, hr, nm, hnm, he⟩ := h
  subst he
  exact ⟨pyStr x, rfl⟩

/-- Every link of a successfully generated settlement page is an
entity-page link. -/
theorem settlement_links_ok (sim g : JVal) (p : SettlementPage)
    (hp : generate_settlement_page sim g = .ok p) :
    ∀ l ∈ settlementPageLinks p, entityRelLink l := by
  simp only [generate_settlement_page, bind_ok_iff, pure_ok_iff] at hp
  obtain ⟨a1, h1, a2, h2, a3, h3, a4, h4, a5, h5, a6, h6, a7, h7, a8, h8,
    a9, h9, a10, h10, a11, h11, a12, h12, a13, h13, hrec⟩ := hp
  subst hrec
  intro l hl
  simp only [settlementPageLinks, List.mem_map] at hl
  obtain ⟨pr, hpr, hl2⟩ := hl
  subst hl2
  refine mapE_ok_forall (P := fun y => entityRelLink y.2) ?_ h12 pr hpr
  intro x y hxy
  simp only [bind_ok_iff, pure_ok_iff] at hxy
  obtain ⟨gos, hgos, go, hgo, nm, hnm, he⟩ := hxy
  subst he
  exact ⟨pyStr x, rfl⟩

/-- Every link of a successfully generated business page is "#" (the
owner placeholder) or an entity-page link. -/
theorem business_links_ok (sim g : JVal) (p : BusinessPage)
    (hp : generate_business_page sim g = .ok p) :
    ∀ l ∈ businessPageLinks p, l = "#" ∨ entityRelLink l := by
  simp only [generate_business_page, bind_ok_iff, pure_ok_iff] at hp
  obtain ⟨a1, h1, a2, h2, a3, h3, a4, h4, a5, h5, a6, h6, a7, h7, a8, h8,
    a9, h9, a10, h10, a11, h11, hrec⟩ := hp
  subst hrec
  intro l hl
  simp only [businessPageLinks, List.mem_cons, List.mem_singleton] at hl
  rcases hl with h | h | h
  · subst h; exact Or.inr ⟨pyStr a6, rfl⟩
  · subst h; exact Or.inl rfl
  · simp at h

/-- Every link of a successfully generated residence page is an
entity-page link. -/
theorem residence_links_ok (sim g : JVal) (p : ResidencePage)
    (hp : generate_residence_page sim g = .ok p) :
    ∀ l ∈ residencePageLinks p, entityRelLink l := by
  simp only [generate_residence_page, bind_ok_iff, pure_ok_iff] at hp
  obtain ⟨a1, h1, a2, h2, a3, h3, a4, h4, a5, h5, a6, h6, a7, h7, a8, h8,
    a9, h9, a10, h10, a11, h11, a12, h12, a13, h13, a14, h14, a15, h15,
    a16, h16, hrec⟩ := hp
  subst hrec
  intro l hl
  simp only [residencePageLinks, List.mem_append, List.mem_singleton,
    List.mem_flatten, List.mem_map] at hl
  rcases hl with h | ⟨ls, ⟨u, hu, hls⟩, hmem⟩
  · subst h; exact ⟨pyStr a6, rfl⟩
  · subst hls
    simp only [List.mem_map] at hmem
    obtain ⟨pr, hpr, hl2⟩ := hmem
    subst hl2
    refine mapE_ok_forall
      (P := fun u2 : UnitInfo => ∀ q ∈ u2.residents, entityRelLink q.2)
      ?_ h15 u hu pr hpr
    intro x y hxy
    simp only [bind_ok_iff, pure_ok_iff] at hxy
    obtain ⟨gos, hgos, ug, hug, c, hc2, rc, hrc, rv, hrv, ridl, hridl,
      rps, hrps, he⟩ := hxy
    subst he
    intro q hq
    exact mapE_ok_forall (P := fun q2 : JVal × String => entityRelLink q2.2)
      (fun x2 y2 hx2 => residentPair_link hx2) hrps q hq

/-- The residence block yields the sentinel "#" or an entity-page
link. -/
theorem characterResidencePair_link {sim g : JVal} {res : JVal × String}
    (h : characterResidencePair sim g = .ok res) :
    res.2 = "#" ∨ entityRelLink res.2 := by
  simp only [characterResidencePair, bind_ok_iff] at h
  obtain ⟨c, hc2, o, ho, hmatch⟩ := h
  cases o with
  | none =>
    simp only [residencePairOfOpt, pure_ok_iff] at hmatch
    subst hmatch
    exact Or.inl rfl
  | some rd =>
    simp only [residencePairOfOpt] at hmatch
    by_cases ht : rd.truthy = true
    · rw [if_pos ht] at hmatch
      simp only [bind_ok_iff, pure_ok_iff] at hmatch
      obtain ⟨rid, hrid, gos, hgos, ug, hug, bid, hbid, gos2, hgos2, bg,
        hbg, nm, hnm, he⟩ := hmatch
      subst he
      exact Or.inr ⟨pyStr bid, rfl⟩
    · rw [if_neg ht] at hmatch
      simp only [pure_ok_iff] at hmatch
      subst hmatch
      exact Or.inl rfl

/-- The occupation block yields the sentinel "#" or an entity-page
link. -/
theorem characterOccupationPair_link {sim g : JVal} {occ : JVal × String}
    (h : characterOccupationPair sim g = .ok occ) :
    occ.2 = "#" ∨ entityRelLink occ.2 := by
  simp only [characterOccupationPair, bind_ok_iff] at h
  obtain ⟨c, hc2, o, ho, hmatch⟩ := h
  cases o with
  | none =>
    simp only [occupationPairOfOpt, pure_ok_iff] at hmatch
    subst hmatch
    exact Or.inl rfl
  | some od =>
    simp only [occupationPairOfOpt] at hmatch
    by_cases ht : od.truthy = true
    · rw [if_pos ht] at hmatch
      simp only [bind_ok_iff, pure_ok_iff] at hmatch
      obtain ⟨bid, hbid, gos, hgos, bg, hbg, nm, hnm, he⟩ := hmatch
      subst he
      exact Or.inr ⟨pyStr bid, rfl⟩
    · rw [if_neg ht] at hmatch
      simp only [pure_ok_iff] at hmatch
      subst hmatch
      exact Or.inl rfl

/-- Every link of a successfully generated character page is "#" (a
sentinel) or an entity-page link. -/
theorem character_links_ok (sim g : JVal) (p : CharacterPage)
    (hp : generate_character_page sim g = .ok p) :
    ∀ l ∈ characterPageLinks p, l = "#" ∨ entityRelLink l := by
  simp only [generate_character_page, bind_ok_iff, pure_ok_iff] at hp
  obtain ⟨a1, h1, a2, h2, a3, h3, a4, h4, a5, h5, a6, h6, a7, h7, a8, h8,
    a9, h9, a10, h10, a11, h11, a12, h12, a13, h13, a14, h14, a15, h15,
    a16, h16, a17, h17, a18, h18, a19, h19, a20, h20, a21, h21, a22, h22,
    a23, h23, a24, h24, a25, h25, a26, h26, a27, h27, a28, h28, a29, h29,
    a30, h30, a31, h31, a32, h32, a33, h33, hrec⟩ := hp
  subst hrec
  intro l hl
  simp only [characterPageLinks, List.mem_append] at hl
  rcases hl with (hpair | hfl) | hrel
  · simp only [List.mem_cons, List.not_mem_nil, or_false] at hpair
    rcases hpair with h | h
    · subst h
      exact characterResidencePair_link h16
    · subst h
      exact characterOccupationPair_link h17
  · obtain ⟨pr, hpr, hl2⟩ := List.mem_map.mp hfl
    subst hl2
    refine Or.inr (mapE_ok_forall
      (P := fun y : JVal × String => entityRelLink y.2) ?_ h27 pr hpr)
    intro x y hxy
    simp only [bind_ok_iff, pure_ok_iff] at hxy
    obtain ⟨gos, hgos, lo, hlo, nm, hnm, he⟩ := hxy
    subst he
    exact ⟨pyStr x, rfl⟩
  · obtain ⟨r, hr, hl2⟩ := List.mem_map.mp hrel
    subst hl2
    refine Or.inr (mapE_ok_forall
      (P := fun y : RelationshipInfo => entityRelLink y.target_link)
      ?_ h32 r hr)
    intro x y hxy
    simp only [bind_ok_iff, pure_ok_iff] at hxy
    obtain ⟨gos, hgos, tg, htg, gos2, hgos2, rel, hrel2, rt, hrt, c, hc2,
      st, hst, tn, htn, rp, hrp, rm, hrm, cp, hcp, rc, hrc2, he⟩ := hxy
    subst he
    exact ⟨x.1, rfl⟩

/-- Both lists the district walk accumulates hold only pairs already in
the accumulators or pairs with entity-page links. -/
theorem districtResLoop_links (sim : JVal) :
    ∀ (rids : List JVal) (a b rs res : List (JVal × String)),
      districtResLoop sim a b rids = .ok (rs, res) →
      (∀ q ∈ rs, q ∈ a ∨ entityRelLink q.2) ∧
      (∀ q ∈ res, q ∈ b ∨ entityRelLink q.2) := by
  intro rids
  induction rids with
  | nil =>
    intro a b rs res h
    simp only [districtResLoop] at h
    injection h with h
    injection h with h1 h2
    subst h1
    subst h2
    exact ⟨fun q hq => Or.inl hq, fun q hq => Or.inl hq⟩
  | cons r rest ih =>
    intro a b rs res h
    simp only [districtResLoop, bind_ok_iff] at h
    obtain ⟨gos, hgos, residence, hres, nm, hnm, comps, hcomps, rb, hrb,
      units_v, hunits, uids, huids, residents2, hloop, htail⟩ := h
    obtain ⟨ihrs, ihres⟩ := ih _ _ _ _ htail
    constructor
    · intro q hq
      rcases ihrs q hq with hin | he
      · rcases List.mem_append.mp hin with h2 | h2
        · exact Or.inl h2
        · rw [List.mem_singleton] at h2
          subst h2
          exact Or.inr ⟨pyStr r, rfl⟩
      · exact Or.inr he
    · intro q hq
      rcases ihres q hq with hin | he
      · rw [unitsLoop_eq, map_ok_iff] at hloop
        obtain ⟨ls, hls, hres2⟩ := hloop
        rw [← hres2] at hin
        rcases List.mem_append.mp hin with h2 | h2
        · exact Or.inl h2
        · rw [List.mem_flatten] at h2
          obtain ⟨chunk, hchunk, hq2⟩ := h2
          refine Or.inr (mapE_ok_forall
            (P := fun c : List (JVal × String) => ∀ q2 ∈ c, entityRelLink q2.2)
            ?_ hls chunk hchunk q hq2)
          intro x y hxy
          simp only [unitChunk, bind_ok_iff] at hxy
          obtain ⟨rl, hrl, hm⟩ := hxy
          intro q2 hq2b
          exact mapE_ok_forall
            (P := fun q3 : JVal × String => entityRelLink q3.2)
            (fun x2 y2 hx2 => residentPair_link hx2) hm q2 hq2b
      · exact Or.inr he

/-- Every link of a successfully generated district page is an
entity-page link. -/
theorem district_links_ok (sim g : JVal) (p : DistrictPage)
    (hp : generate_district_page sim g = .ok p) :
    ∀ l ∈ districtPageLinks p, entityRelLink l := by
  simp only [generate_district_page, bind_ok_iff, pure_ok_iff] at hp
  obtain ⟨a1, h1, a2, h2, a3, h3, a4, h4, a5, h5, a6, h6, a7, h7, a8, h8,
    a9, h9, a10, h10, a11, h11, a12, h12, a13, h13, a14, h14, a15, h15,
    a16, h16, a17, h17, a18, h18, a19, h19, a20, h20, a21, h21, a22, h22,
    a23, h23, a24, h24, hrec⟩ := hp
  obtain ⟨rs, res⟩ := a18
  obtain ⟨hrs, hres⟩ := districtResLoop_links sim a17 [] [] rs res h18
  subst hrec
  intro l hl
  simp only [districtPageLinks, List.mem_append, List.mem_singleton] at hl
  rcases hl with ((hs | hr) | hre) | hb
  · subst hs
    exact ⟨pyStr a10, rfl⟩
  · obtain ⟨pr, hpr, hl2⟩ := List.mem_map.mp hr
    subst hl2
    rcases hrs pr hpr with hin | he
    · simp at hin
    · exact he
  · obtain ⟨pr, hpr, hl2⟩ := List.mem_map.mp hre
    subst hl2
    rcases hres pr hpr with hin | he
    · simp at hin
    · exact he
  · obtain ⟨pr, hpr, hl2⟩ := List.mem_map.mp hb
    subst hl2
    refine mapE_ok_forall
      (P := fun y : JVal × String => entityRelLink y.2) ?_ h23 pr hpr
    intro x y hxy
    simp only [bind_ok_iff, pure_ok_iff] at hxy
    obtain ⟨gos, hgos, bgo, hbgo, nm, hnm, he⟩ := hxy
    subst he
    exact ⟨pyStr x, rfl⟩

/-- An invariant preserved by every step of `foldE` holds of its
result. -/
theorem foldE_inv {σ α : Type} {f : σ → α → Except PyErr σ} {P : σ → Prop}
    (hstep : ∀ s a s2, P s → f s a = .ok s2 → P s2) :
    ∀ {xs : List α} {init s : σ}, P init → foldE f init xs = .ok s → P s := by
  intro xs
  induction xs with
  | nil =>
    intro init s h0 h
    simp only [foldE] at h
    injection h with h
    subst h
    exact h0
  | cons x rest ih =>
    intro init s h0 h
    simp only [foldE, bind_ok_iff] at h
    obtain ⟨s1, hs1, htail⟩ := h
    exact ih (hstep _ _ _ h0 hs1) htail

/-- An unlabeled homepage entry links root-relatively. -/
theorem homeEntryPair_link {entry : JVal} {pr : JVal × String}
    (h : homeEntryPair entry = .ok pr) : rootLink pr.2 := by
  simp only [homeEntryPair, bind_ok_iff, pure_ok_iff] at h
  obtain ⟨nm, hnm, id, hid, he⟩ := h
  subst he
  exact ⟨pyStr id, rfl⟩

/-- A labeled homepage entry links root-relatively. -/
theorem homeEntryLabeledPair_link {entry : JVal} {pr : String × String}
    (h : homeEntryLabeledPair entry = .ok pr) : rootLink pr.2 := by
  simp only [homeEntryLabeledPair, bind_ok_iff, pure_ok_iff] at h
  obtain ⟨c, hc2, b, hb, nm, hnm, id, hid, he⟩ := h
  subst he
  exact ⟨pyStr id, rfl⟩

/-- One homepage-loop step preserves "every bucket link is
root-relative". -/
theorem homeStep_links {acc acc2 : HomePage} {entry : JVal}
    (h0 : ∀ l ∈ homePageLinks acc, rootLink l)
    (h : homeStep acc entry = .ok acc2) :
    ∀ l ∈ homePageLinks acc2, rootLink l := by
  have hS : ∀ l ∈ acc.settlements.map Prod.snd, rootLink l :=
    fun l hl => h0 l (List.mem_append_left _ (List.mem_append_left _
      (List.mem_append_left _ hl)))
  have hD : ∀ l ∈ acc.districts.map Prod.snd, rootLink l :=
    fun l hl => h0 l (List.mem_append_left _ (List.mem_append_left _
      (List.mem_append_right _ hl)))
  have hB : ∀ l ∈ acc.businesses.map Prod.snd, rootLink l :=
    fun l hl => h0 l (List.mem_append_left _ (List.mem_append_right _ hl))
  have hC : ∀ l ∈ acc.characters.map Prod.snd, rootLink l :=
    fun l hl => h0 l (List.mem_append_right _ hl)
  simp only [homeStep, bind_ok_iff] at h
  obtain ⟨k, hk, hmatch⟩ := h
  cases k with
  | none =>
    simp only [pure_ok_iff] at hmatch
    subst hmatch
    exact h0
  | some k2 =>
    cases k2 with
    | settlement =>
      simp only [bind_ok_iff, pure_ok_iff] at hmatch
      obtain ⟨pr, hpr, he⟩ := hmatch
      subst he
      intro l hl
      simp only [homePageLinks, List.map_append, List.map_cons,
        List.map_nil, List.mem_append, List.mem_singleton] at hl
      rcases hl with (((h2 | h2) | h2) | h2) | h2
      · exact hS l h2
      · subst h2
        exact homeEntryPair_link hpr
      · exact hD l h2
      · exact hB l h2
      · exact hC l h2
    | district =>
      simp only [bind_ok_iff, pure_ok_iff] at hmatch
      obtain ⟨pr, hpr, he⟩ := hmatch
      subst he
      intro l hl
      simp only [homePageLinks, List.map_append, List.map_cons,
        List.map_nil, List.mem_append, List.mem_singleton] at hl
      rcases hl with ((h2 | (h2 | h2)) | h2) | h2
      · exact hS l h2
      · exact hD l h2
      · subst h2
        exact homeEntryPair_link hpr
      · exact hB l h2
      · exact hC l h2
    | business =>
      simp only [bind_ok_iff, pure_ok_iff] at hmatch
      obtain ⟨pr, hpr, he⟩ := hmatch
      subst he
      intro l hl
      simp only [homePageLinks, List.map_append, List.map_cons,
        List.map_nil, List.mem_append, List.mem_singleton] at hl
      rcases hl with ((h2 | h2) | (h2 | h2)) | h2
      · exact hS l h2
      · exact hD l h2
      · exact hB l h2
      · subst h2
        exact homeEntryLabeledPair_link hpr
      · exact hC l h2
    | character =>
      simp only [bind_ok_iff, pure_ok_iff] at hmatch
      obtain ⟨pr, hpr, he⟩ := hmatch
      subst he
      intro l hl
      simp only [homePageLinks, List.map_append, List.map_cons,
        List.map_nil, List.mem_append, List.mem_singleton] at hl
      rcases hl with ((h2 | h2) | h2) | (h2 | h2)
      · exact hS l h2
      · exact hD l h2
      · exact hB l h2
      · exact hC l h2
      · subst h2
        exact homeEntryLabeledPair_link hpr

/-- Every link of a successfully generated homepage is root-relative. -/
theorem home_links_ok (sim : JVal) (h : HomePage)
    (hp : generate_home_page sim = .ok h) :
    ∀ l ∈ homePageLinks h, rootLink l := by
  simp only [generate_home_page, bind_ok_iff] at hp
  obtain ⟨gos, hgos, entries, hentries, hfold⟩ := hp
  refine foldE_inv
    (P := fun acc : HomePage => ∀ l ∈ homePageLinks acc, rootLink l)
    (fun s a s2 hs hstep => homeStep_links hs hstep) ?_ hfold
  intro l hl
  simp [homePageLinks] at hl

/-- C6 (amended): every RESOLVED reference link emitted into an entity
page uses the relative path `../gameobjects/<id>.html`, while the
sentinel "#" also occurs on entity pages — always for the business owner
placeholder, and for a character's missing residence or occupation; every
link emitted into the homepage uses the root-relative path
`/gameobjects/<id>.html`.  The `../` versus `/` asymmetry holds for all
entities and all reference kinds. -/
theorem C6_link_shapes :
    (∀ sim g p, generate_settlement_page sim g = .ok p →
      ∀ l ∈ settlementPageLinks p, entityRelLink l) ∧
    (∀ sim g p, generate_district_page sim g = .ok p →
      ∀ l ∈ districtPageLinks p, entityRelLink l) ∧
    (∀ sim g p, generate_residence_page sim g = .ok p →
      ∀ l ∈ residencePageLinks p, entityRelLink l) ∧
    (∀ sim g p, generate_business_page sim g = .ok p →
      ∀ l ∈ businessPageLinks p, l = "#" ∨ entityRelLink l) ∧
    (∀ sim g p, generate_character_page sim g = .ok p →
      ∀ l ∈ characterPageLinks p, l = "#" ∨ entityRelLink l) ∧
    (∀ sim h, generate_home_page sim = .ok h →
      ∀ l ∈ homePageLinks h, rootLink l) :=
  ⟨settlement_links_ok, district_links_ok, residence_links_ok,
   business_links_ok, character_links_ok, home_links_ok⟩

/-- Witness for C6: a concrete settlement page link has the `../` entity
form, and a concrete homepage link has the root-relative form. -/
theorem C6_witness :
    entityRelLink "../gameobjects/2.html" ∧ rootLink "/gameobjects/2.html" := by
  constructor
  · refine C6_link_shapes.1 simD settlementW
      ((generate_settlement_page simD settlementW).toOption.getD {
        settlement_name := .null, population := .null,
        description := .null, districts := [], out_file := "" })
      rfl "../gameobjects/2.html" ?_
    exact List.Mem.head _
  · refine C6_link_shapes.2.2.2.2.2 simBW
      ((generate_home_page simBW).toOption.getD {
        settlements := [], districts := [], businesses := [],
        characters := [] })
      rfl "/gameobjects/2.html" ?_
    exact List.Mem.head _
